import Mathlib

/-!
Verification of the `beamng_control` bridge node
(`src/beamng_control/scripts/beamng_control/bridge.py`).

The bridge is orchestration glue around an external simulation engine:
this development shallowly embeds the parts of `BeamNGBridge` that carry
state and control flow — the step action, the scenario start sequence,
the service endpoints and the publish loop.  Engine and transport
objects (the `beamngpy` client, ROS services, actionlib) are external
collaborators; their calls are recorded as data, never re-implemented.
Machine integers of the ROS messages are modelled as `Int`; Python's
floor division and modulo are `Int.fdiv` / `Int.fmod`.
-/

namespace BeamNGControlBridge

/-! ## Step controller (`BeamNGBridge.step`, bridge.py lines 406-437) -/

/-- Errors the Python code can raise inside `step`: `total // feedback`
raises `ZeroDivisionError` when the feedback cycle size is zero. -/
inductive StepError where
  | zeroDivision
deriving DecidableEq

/-- Observable outcome of one `step` action execution:
the sizes handed to `game_client.step` in order, the
`steps_completed` values published as feedback in order, whether
`set_preempted` was called, and whether `set_succeeded` was called. -/
structure StepOutcome where
  engineSteps : List Int
  feedbacks : List Int
  preempted : Bool
  succeeded : Bool
deriving DecidableEq

/-- The `for i in range(0, imax)` loop body of `step`.
`preempt i` is the value `is_preempt_requested()` returns at the check
performed before chunk `i` (0-indexed); `counter` is `step_counter`.
On preemption the loop breaks with `success = False` and no result is
set; otherwise each iteration steps the engine by
`min(steps_to_finish, feedback_cycle_size)` and publishes the new
cumulative counter as feedback. -/
def stepLoop (preempt : Nat → Bool) (N F : Int) : Nat → Nat → Int → StepOutcome
  | _, 0, _ => ⟨[], [], false, true⟩
  | i, fuel+1, counter =>
    if preempt i then ⟨[], [], true, false⟩
    else
      let stepsToFinish := N - counter
      let stepSize := min stepsToFinish F
      let counter' := counter + stepSize
      let rest := stepLoop preempt N F (i+1) fuel counter'
      ⟨stepSize :: rest.engineSteps, counter' :: rest.feedbacks,
       rest.preempted, rest.succeeded⟩

/-- `BeamNGBridge.step` (bridge.py 406-437).  `N` is
`goal.total_number_of_steps`, `F` is `goal.feedback_cycle_size`.
`imax = N // F`, `rest = N % F`, `imax = imax + 1 if rest else imax`
(Python floor division / modulo, hence `Int.fdiv` / `Int.fmod`); the
loop runs `range(0, imax)`, which is empty whenever `imax ≤ 0`. -/
def step (preempt : Nat → Bool) (N F : Int) : Except StepError StepOutcome :=
  if F = 0 then .error .zeroDivision
  else
    let imax0 := N.fdiv F
    let rest := N.fmod F
    let imax := if rest ≠ 0 then imax0 + 1 else imax0
    .ok (stepLoop preempt N F 0 imax.toNat 0)

/-- Spec-side chunk list (from the spec's words, §4.5): `N` is split
into chunks, "each chunk's size = min(remaining, F)"; the first
argument of the recursion is the number of chunks. -/
def specChunks (F : Int) : Nat → Int → List Int
  | 0, _ => []
  | k+1, remaining =>
    min remaining F :: specChunks F k (remaining - min remaining F)

/-- Spec-side cumulative feedback values: "progress feedback carrying
steps-completed-so-far" after each chunk, starting from count `c`. -/
def cumFeedback (c : Int) : List Int → List Int
  | [] => []
  | x :: xs => (c + x) :: cumFeedback (c + x) xs

/-- `ceilDiv a b = ⌈a / b⌉` for `0 < b`, as an integer formula. -/
def ceilDiv (a b : Int) : Int := (a + b - 1).fdiv b

/-! ## Sensors and vehicles (`get_sensor_classical_from_dict`, 119-155) -/

/-- The `sensor` property handed to `get_sensor` for a noise spec:
either the base sensor object looked up in `vehicle.sensors` (held here
by its attachment name), or — when the lookup fails — the raw id
string that `n_spec.pop('base sensor')` produced, which the code passes
through unchanged. -/
inductive BaseSensorArg where
  | obj (attachedName : String)
  | raw (id : String)
deriving DecidableEq

/-- A sensor object as far as the bridge observes it.  `get_sensor`
lives in `sensorHelper` (external to this file's source); following the
spec it dispatches on the type name, so the object is represented by
its type and, for a noise sensor, its base-sensor argument. -/
structure Sensor where
  stype : String
  base : Option BaseSensorArg
deriving DecidableEq

/-- A `beamngpy` vehicle as the bridge observes it: its id and its
`sensors` table (insertion-ordered, overwrite-on-collision, matching
dict semantics of the underlying storage). -/
structure Vehicle where
  vid : String
  sensors : List (String × Sensor)
deriving DecidableEq

/-- `vehicle.attach_sensor(name, s)`: dict assignment into
`vehicle.sensors` — overwrite in place if the key exists, else append. -/
def attach_sensor (v : Vehicle) (name : String) (s : Sensor) : Vehicle :=
  if v.sensors.any (fun p => p.1 == name) then
    { v with sensors := v.sensors.map (fun p => if p.1 == name then (name, s) else p) }
  else
    { v with sensors := v.sensors ++ [(name, s)] }

/-- One entry of a `sensors_classical` (or `sensors_automation`) list:
`name`, `type`, and the optional `'base sensor'` key whose presence
marks the spec as a derived/noise spec. -/
structure ClassicalSensorSpec where
  name : String
  stype : String
  baseSensor : Option String
deriving DecidableEq

/-- `BeamNGBridge.get_sensor_classical_from_dict` (119-155) restricted
to its observable effect: the vehicle's sensor table and the error log.
The spec list is partitioned by presence of `'base sensor'`; primary
specs are attached first; for each noise spec the base id is looked up
in `vehicle.sensors` — on a miss the code logs
"Could not find sensor with id … to generate noise sensor of type …"
and then still builds and attaches the noise sensor, with the raw id
string in the `sensor` slot. -/
def get_sensor_classical_from_dict (specs : List ClassicalSensorSpec)
    (vehicle : Vehicle) : Vehicle × List String :=
  let sensorCollection := specs.filter (fun s => s.baseSensor.isNone)
  let noiseSensors := specs.filter (fun s => s.baseSensor.isSome)
  let v1 := sensorCollection.foldl
    (fun v s => attach_sensor v s.name ⟨s.stype, none⟩) vehicle
  noiseSensors.foldl
    (fun acc n =>
      let baseId := n.baseSensor.getD ""
      if acc.1.sensors.any (fun p => p.1 == baseId) then
        (attach_sensor acc.1 n.name ⟨n.stype, some (.obj baseId)⟩, acc.2)
      else
        (attach_sensor acc.1 n.name ⟨n.stype, some (.raw baseId)⟩,
         acc.2 ++ ["Could not find sensor with id " ++ baseId ++
                   " to generate noise sensor of type " ++ n.stype]))
    (v1, [])

/-! ## Scenario documents and bridge state (`start_scenario`, 277-303) -/

/-- One entry of a vehicle's `sensors_automation` list, with the
mounting fields read by `get_stamped_static_tf_frame`. -/
structure AutoSensorSpec where
  name : String
  stype : String
  baseSensor : Option String
  position : List Float
  rotation : List Float

/-- One entry of a scenario document's `vehicles` list. -/
structure VehicleSpec where
  name : String
  vmodel : String
  position : List Float
  rotation : List Float
  sensorsClassical : List ClassicalSensorSpec
  sensorsAutomation : List AutoSensorSpec

/-- A scenario document as `decode_scenario` / `start_scenario` read
it: `level`, `name`, the vehicles, whether
`network_vizualization == 'on'`, the optional post-start hook fields,
and whether `mode == 'paused'`. -/
structure ScenarioSpec where
  level : String
  sname : String
  vehicles : List VehicleSpec
  networkViz : Bool
  weatherPreset : Option String
  timeOfDay : Option String
  modePaused : Bool

/-- A stamped static transform (`geometry_msgs TransformStamped`) as
built by `get_stamped_static_tf_frame` (157-179).  The orientation
quaternion is computed by the external `tf.transformations` library
(`quaternion_from_euler`, `quaternion_multiply`); it is represented
here by its Euler-angle inputs, since no claim in scope concerns its
numeric value.  `stamp` is `header.stamp` (re-written by the publish
loop each tick). -/
structure TFFrame where
  frameId : String
  childFrameId : String
  translation : List Float
  rotationEuler : List Float
  stamp : Nat

/-- `BeamNGBridge.get_stamped_static_tf_frame` (157-179): parent frame
is the vehicle id, child frame is `"{vehicle_name}_{sensor_name}"`,
translation is copied, the stamp is left for the publish loop. -/
def get_stamped_static_tf_frame (translation rotation : List Float)
    (vehicle_name sensor_name : String) : TFFrame :=
  { frameId := vehicle_name
    childFrameId := vehicle_name ++ "_" ++ sensor_name
    translation := translation
    rotationEuler := rotation
    stamp := 0 }

/-- A publisher registered in `self._publishers`: either a sensor
publisher created in `set_sensor_automation_from_dict` (identified by
its topic `"{NODE_NAME}/{vehicle.vid}/{name}"`), or the
`NetworkPublisher` appended by `decode_scenario`. -/
inductive Publisher where
  | sensorPub (topic : String)
  | networkPub
deriving DecidableEq

/-- The mutable bridge state the claims range over: `self._publishers`,
`self._static_tf_frames`, `self._vehicle_publisher` (held by the id of
the vehicle it was built for) and `self.running`. -/
structure BridgeState where
  publishers : List Publisher
  staticTfFrames : List TFFrame
  vehiclePublisher : Option String
  running : Bool

/-- The static frames appended by `set_sensor_automation_from_dict`
(181-227): for each vehicle, for each `sensors_automation` spec without
a `'base sensor'` key whose `get_sensor` call yields a non-`None`
publisher (`pubFor` models that external lookup by sensor type), one
frame built from the spec's mounting fields.  The noise branch of this
function is commented out in the source, so derived specs produce
nothing. -/
def automationFrames (pubFor : String → Bool) (spec : ScenarioSpec) : List TFFrame :=
  (spec.vehicles.map (fun v =>
    ((v.sensorsAutomation.filter (fun s => s.baseSensor.isNone)).filter
        (fun s => pubFor s.stype)).map
      (fun s => get_stamped_static_tf_frame s.position s.rotation v.name s.name))).flatten

/-- The publishers appended by `set_sensor_automation_from_dict`, in
step with `automationFrames`: one per automation sensor with a
publisher, on topic `"beamng_control/{vehicle.vid}/{name}"`. -/
def automationPublishers (pubFor : String → Bool) (spec : ScenarioSpec) : List Publisher :=
  (spec.vehicles.map (fun v =>
    ((v.sensorsAutomation.filter (fun s => s.baseSensor.isNone)).filter
        (fun s => pubFor s.stype)).map
      (fun s => Publisher.sensorPub ("beamng_control/" ++ v.name ++ "/" ++ s.name)))).flatten

/-- Effect of `set_sensor_automation_from_dict` (181-227) on the bridge
state: frames and publishers for the scenario's automation sensors are
appended to `self._static_tf_frames` and `self._publishers`. -/
def set_sensor_automation_from_dict (pubFor : String → Bool) (spec : ScenarioSpec)
    (st : BridgeState) : BridgeState :=
  { st with
    staticTfFrames := st.staticTfFrames ++ automationFrames pubFor spec
    publishers := st.publishers ++ automationPublishers pubFor spec }

/-- Effect of `decode_scenario` (244-275) on the bridge state: the
vehicle loop assigns `self._vehicle_publisher = VehiclePublisher(vehicle)`
per vehicle (the last one stands), and `network_vizualization == 'on'`
appends a `NetworkPublisher`.  Engine-side construction (scenario and
vehicle objects, hooks) does not touch these fields. -/
def decode_scenario (spec : ScenarioSpec) (st : BridgeState) : BridgeState :=
  { st with
    vehiclePublisher := spec.vehicles.foldl (fun _ v => some v.name) st.vehiclePublisher
    publishers := st.publishers ++ (if spec.networkViz then [Publisher.networkPub] else []) }

/-- `BeamNGBridge.start_scenario` (277-297).  `doc` is the result of
`_scenario_from_json` (234-242): `none` models the `FileNotFoundError`
path, where the helper logs and returns `None` and `start_scenario`
returns early.  Note the order in the source: `self._publishers`
is reset to `[]` on line 278, *before* the document is loaded and
checked; `self._static_tf_frames` is never reset.  On success the
state is decoded, automation sensors are registered, and
`self.running` is set. -/
def start_scenario (pubFor : String → Bool) (st : BridgeState)
    (doc : Option ScenarioSpec) : BridgeState :=
  let st1 := { st with publishers := [] }
  match doc with
  | none => st1
  | some spec =>
    let st2 := decode_scenario spec st1
    let st3 := set_sensor_automation_from_dict pubFor spec st2
    { st3 with running := true }

/-! ## `get_scenario_state` (305-323) -/

/-- The engine's `get_gamestate()` reply: the `'state'` and `'level'`
entries, and the `'scenario_state'` entry when that key is present. -/
structure GameState where
  state : String
  level : String
  scenarioState : Option String

/-- The engine-side data `get_scenario_state` reads: the game state,
the keys of `get_current_vehicles()`, and `get_scenario_name()`. -/
structure EngineView where
  gamestate : GameState
  currentVehicles : List String
  scenarioName : String

/-- The `GetScenarioStateResponse.state` message fields. -/
structure ScenarioStateMsg where
  loaded : Bool
  running : Bool
  scenarioName : String
  levelName : String
  vehicleIds : List String
deriving DecidableEq

/-- `BeamNGBridge.get_scenario_state` (305-323): all fields default to
false/empty; when the engine state is `"scenario"` it sets `loaded`,
`level_name` and the vehicle id list, and — only when the
`'scenario_state'` key is present — compares it against `"running"`
and fills in the scenario name. -/
def get_scenario_state (e : EngineView) : ScenarioStateMsg :=
  let r0 : ScenarioStateMsg :=
    { loaded := false, running := false, scenarioName := "", levelName := "", vehicleIds := [] }
  if e.gamestate.state = "scenario" then
    let r1 := { r0 with
      loaded := true
      levelName := e.gamestate.level
      vehicleIds := e.currentVehicles }
    match e.gamestate.scenarioState with
    | some ss =>
      let r2 := if ss = "running" then { r1 with running := true } else r1
      { r2 with scenarioName := e.scenarioName }
    | none => r1
  else r0

/-! ## `spawn_new_vehicle` (325-350) and `teleport_vehicle` (352-368) -/

/-- A call made on the engine client by the two vehicle endpoints. -/
inductive EngineCall where
  | spawnVehicle (name vmodel : String) (pos rotQuat : List Float)
  | teleportVehicle (vehicleId : String) (pos rotQuat : List Float)

/-- The vehicle-config document named by
`req.path_to_vehicle_config_file`, as `get_vehicle_from_dict` reads it
(`name` is overwritten with `req.name` before use). -/
structure VehicleConfig where
  name : String
  vmodel : String

/-- A `SpawnVehicle` request.  `pathConfig` is the result of
`load_json(req.path_to_vehicle_config_file)`: `none` models the
`FileNotFoundError` path. -/
structure SpawnVehicleRequest where
  pathConfig : Option VehicleConfig
  name : String
  pos : List Float
  rotQuat : List Float

/-- A `TeleportVehicle` request. -/
structure TeleportVehicleRequest where
  vehicleId : String
  pos : List Float
  rotQuat : List Float

/-- `BeamNGBridge.spawn_new_vehicle` (325-350): `response.success`
starts false; a missing config file, `len(req.pos) != 3`, or
`len(req.rot_quat) != 4` each return early; otherwise
`game_client.spawn_vehicle` is called — its return value (`engineRet`)
is ignored — and `response.success = True`.  The result pairs the
response flag with the engine calls made. -/
def spawn_new_vehicle (req : SpawnVehicleRequest) (engineRet : Bool) :
    Bool × List EngineCall :=
  match req.pathConfig with
  | none => (false, [])
  | some cfg =>
    if req.pos.length ≠ 3 then (false, [])
    else if req.rotQuat.length ≠ 4 then (false, [])
    else
      let _ := engineRet
      (true, [.spawnVehicle req.name cfg.vmodel req.pos req.rotQuat])

/-- `BeamNGBridge.teleport_vehicle` (352-368): same arity checks, then
`game_client.teleport_vehicle` is called and `response.success` is set
exactly when the engine reported success. -/
def teleport_vehicle (req : TeleportVehicleRequest) (engineRet : Bool) :
    Bool × List EngineCall :=
  if req.pos.length ≠ 3 then (false, [])
  else if req.rotQuat.length ≠ 4 then (false, [])
  else (engineRet, [.teleportVehicle req.vehicleId req.pos req.rotQuat])

/-! ## Publish loop (`BeamNGBridge.work`, 459-473) -/

/-- One tick of the publish loop: the loop time, the static frames as
broadcast (re-stamped with the current time), the vehicle publisher's
`publish` target if one is registered, and the registered publishers
whose `publish` is invoked. -/
structure Tick where
  time : Nat
  stampedFrames : List TFFrame
  vehiclePublished : Option String
  published : List Publisher

/-- `static_tf.header.stamp = current_time` before re-broadcast. -/
def restamp (t : Nat) (f : TFFrame) : TFFrame := { f with stamp := t }

/-- The `while not rospy.is_shutdown()` loop of `work` (464-473).
Time is discretised into ticks; `shutdown t` is the value
`rospy.is_shutdown()` returns at the start of tick `t`.  Each
iteration re-stamps and broadcasts every static frame, publishes the
vehicle publisher when present, and invokes every registered
publisher.  `fuel` bounds the observed trace (the source loop is
unbounded and exits only when `shutdown` turns true). -/
def workLoop (shutdown : Nat → Bool) (frames : List TFFrame)
    (vp : Option String) (pubs : List Publisher) : Nat → Nat → List Tick
  | _, 0 => []
  | t, fuel+1 =>
    if shutdown t then []
    else
      { time := t, stampedFrames := frames.map (restamp t),
        vehiclePublished := vp, published := pubs }
        :: workLoop shutdown frames vp pubs (t+1) fuel

/-- `BeamNGBridge.work` (459-473): `runFlag t` is the value of
`self.running` at tick `t`.  The source reads `self.running` once, in
the `if self.running:` guard before the loop — so only `runFlag 0` is
ever consulted: when it is false the method returns at once and no
tick ever happens, even if a scenario is marked running later. -/
def work (runFlag shutdown : Nat → Bool) (frames : List TFFrame)
    (vp : Option String) (pubs : List Publisher) (fuel : Nat) : List Tick :=
  if runFlag 0 then workLoop shutdown frames vp pubs 0 fuel else []

/-! ## Concrete sample data used to evaluate the model -/

/-- A static frame as a first scenario would have registered it. -/
def sampleFrame : TFFrame :=
  { frameId := "v0", childFrameId := "v0_s0", translation := [],
    rotationEuler := [], stamp := 0 }

/-- A bridge state left behind by an earlier scenario: one registered
publisher, one static frame, a vehicle publisher, run flag set. -/
def sampleState : BridgeState :=
  { publishers := [Publisher.networkPub], staticTfFrames := [sampleFrame],
    vehiclePublisher := some "v0", running := true }

/-- A scenario document with one vehicle `v1` carrying one automation
camera `s1`. -/
def scenarioOne : ScenarioSpec :=
  { level := "west_coast_usa", sname := "one"
    vehicles := [{ name := "v1", vmodel := "etk800", position := [], rotation := []
                   sensorsClassical := []
                   sensorsAutomation := [{ name := "s1", stype := "Camera",
                                           baseSensor := none, position := [], rotation := [] }] }]
    networkViz := false, weatherPreset := none, timeOfDay := none, modePaused := false }

/-- A second scenario document with one vehicle `v2` carrying one
automation camera `s2`. -/
def scenarioTwo : ScenarioSpec :=
  { level := "west_coast_usa", sname := "two"
    vehicles := [{ name := "v2", vmodel := "etk800", position := [], rotation := []
                   sensorsClassical := []
                   sensorsAutomation := [{ name := "s2", stype := "Camera",
                                           baseSensor := none, position := [], rotation := [] }] }]
    networkViz := false, weatherPreset := none, timeOfDay := none, modePaused := false }

/-- A derived/noise classical sensor spec whose base id `lidar0` is not
attached to the vehicle. -/
def noiseOnlySpec : ClassicalSensorSpec :=
  { name := "n1", stype := "WhiteGaussianNoise", baseSensor := some "lidar0" }

/-! # Theorems -/

/-- One spec-side chunk per unit of fuel. -/
theorem specChunks_length (F : Int) : ∀ (k : Nat) (r : Int), (specChunks F k r).length = k
  | 0, _ => rfl
  | k+1, r => by simp [specChunks, specChunks_length F k]

/-- With no preemption request the step loop runs its full fuel and
produces exactly the spec-side chunks and cumulative feedbacks. -/
theorem stepLoop_no_preempt (N F : Int) :
    ∀ (fuel i : Nat) (c : Int),
      stepLoop (fun _ => false) N F i fuel c =
        ⟨specChunks F fuel (N - c), cumFeedback c (specChunks F fuel (N - c)), false, true⟩ := by
  intro fuel
  induction fuel with
  | zero => intro i c; rfl
  | succ n ih =>
    intro i c
    have harg : N - (c + min (N - c) F) = N - c - min (N - c) F := by ring
    simp only [stepLoop, Bool.false_eq_true, if_false, ih (i+1) (c + min (N - c) F),
      specChunks, cumFeedback, harg]

/-- The loop bound computed by `step` equals `⌈N / F⌉` when `F > 0`. -/
theorem imax_eq_ceilDiv (N F : Int) (hF : 0 < F) :
    (if N.fmod F ≠ 0 then N.fdiv F + 1 else N.fdiv F) = ceilDiv N F := by
  have hF0 : F ≠ 0 := ne_of_gt hF
  have hFnn : (0:Int) ≤ F := le_of_lt hF
  rw [ceilDiv, Int.fdiv_eq_ediv _ hFnn]
  simp only [Int.fdiv_eq_ediv _ hFnn, Int.fmod_eq_emod _ hFnn]
  have hq : F * (N / F) + N % F = N := Int.ediv_add_emod N F
  have hr0 : 0 ≤ N % F := Int.emod_nonneg N hF0
  have hrF : N % F < F := Int.emod_lt_of_pos N hF
  by_cases h : N % F = 0
  · rw [if_neg (by simpa using h)]
    have hN' : N + F - 1 = (F - 1) + (N / F) * F := by linear_combination h - hq
    rw [hN', Int.add_mul_ediv_right _ _ hF0,
      Int.ediv_eq_zero_of_lt (a := F - 1) (b := F) (by linarith) (by linarith), zero_add]
  · rw [if_pos (by simpa using h)]
    have h1 : 1 ≤ N % F := lt_of_le_of_ne hr0 (Ne.symm h)
    have hN' : N + F - 1 = (N % F - 1) + (N / F + 1) * F := by linear_combination -hq
    rw [hN', Int.add_mul_ediv_right _ _ hF0,
      Int.ediv_eq_zero_of_lt (a := N % F - 1) (b := F) (by linarith) (by linarith), zero_add]

/-- C2: for positive `N` and `F` with `F ≤ N` and no cancellation, the
step action performs exactly `⌈N / F⌉` engine step calls of sizes
`min(remaining, F)`, publishes the cumulative step count after each
chunk, marks no preemption, and sets a success result. -/
theorem step_chunking (N F : Int) (hN : 0 < N) (hF : 0 < F) (hFN : F ≤ N) :
    step (fun _ => false) N F =
      .ok ⟨specChunks F ((ceilDiv N F).toNat) N,
           cumFeedback 0 (specChunks F ((ceilDiv N F).toNat) N), false, true⟩
    ∧ (specChunks F ((ceilDiv N F).toNat) N).length = (ceilDiv N F).toNat := by
  have hF0 : F ≠ 0 := ne_of_gt hF
  refine ⟨?_, specChunks_length F _ N⟩
  simp only [step]
  rw [if_neg hF0, imax_eq_ceilDiv N F hF, stepLoop_no_preempt N F _ 0 0]
  norm_num

/-- Witness for C2 at the spec's worked example `N = 25`, `F = 10`:
chunks `[10, 10, 5]`, feedbacks `[10, 20, 25]`, success. -/
theorem step_chunking_witness :
    step (fun _ => false) 25 10 = .ok ⟨[10, 10, 5], [10, 20, 25], false, true⟩ :=
  (step_chunking 25 10 (by decide) (by decide) (by decide)).1.trans (by rfl)

/-- With a preemption request first observed at chunk index `k0`
(0-indexed) and enough fuel to reach it, the loop executes the first
`k0` full chunks, publishes their feedbacks, then marks preemption and
sets no success result. -/
theorem stepLoop_preempt_at (N F : Int) (k0 : Nat) :
    ∀ (m i : Nat) (c : Int) (fuel : Nat), i + m = k0 → m < fuel →
      stepLoop (fun j => decide (k0 ≤ j)) N F i fuel c =
        ⟨specChunks F m (N - c), cumFeedback c (specChunks F m (N - c)), true, false⟩ := by
  intro m
  induction m with
  | zero =>
    intro i c fuel hik hmf
    match fuel, hmf with
    | fuel+1, _ =>
      have hpi : decide (k0 ≤ i) = true := by subst hik; simp
      simp only [stepLoop, hpi, if_true, specChunks, cumFeedback]
  | succ n ih =>
    intro i c fuel hik hmf
    match fuel, hmf with
    | fuel+1, hmf =>
      have hpi : decide (k0 ≤ i) = false := by
        subst hik; simp only [decide_eq_false_iff_not]; omega
      have harg : N - (c + min (N - c) F) = N - c - min (N - c) F := by ring
      simp only [stepLoop, hpi, Bool.false_eq_true, if_false,
        ih (i+1) (c + min (N - c) F) fuel (by omega) (by omega),
        specChunks, cumFeedback, harg]

/-- C3: if a cancellation request is pending from before chunk `k`
(`1 ≤ k ≤ ⌈N / F⌉`), the step action executes exactly the first `k - 1`
full chunks on the engine (no partial rest chunk), has published
exactly `k - 1` feedbacks, marks itself preempted and sets no success
result.  Cancellation is observed only at the per-chunk check, so every
executed chunk is whole. -/
theorem step_preemption (N F : Int) (k : Nat) (hN : 0 < N) (hF : 0 < F)
    (hk1 : 1 ≤ k) (hk2 : k ≤ (ceilDiv N F).toNat) :
    step (fun i => decide (k - 1 ≤ i)) N F =
      .ok ⟨specChunks F (k - 1) N, cumFeedback 0 (specChunks F (k - 1) N), true, false⟩
    ∧ (specChunks F (k - 1) N).length = k - 1 := by
  have hF0 : F ≠ 0 := ne_of_gt hF
  refine ⟨?_, specChunks_length F _ N⟩
  simp only [step]
  rw [if_neg hF0, imax_eq_ceilDiv N F hF,
    stepLoop_preempt_at N F (k - 1) (k - 1) 0 0 _ (by omega) (by omega)]
  norm_num

/-- Witness for C3 at the spec's example: `N = 25`, `F = 10`,
cancellation before the 2nd chunk — chunk 1 runs, one feedback is
published, preempted, no success. -/
theorem step_preemption_witness :
    step (fun i => decide (1 ≤ i)) 25 10 = .ok ⟨[10], [10], true, false⟩ :=
  (step_preemption 25 10 2 (by decide) (by decide) (by decide) (by decide)).1.trans (by rfl)

/-- C7 counterexample: with `N = 25` and a negative feedback cycle size
`F = -10`, the step action does not report an error — the Python floor
division makes `imax = -2`, `range(0, -2)` is empty, and the action
sets a success result having made no engine step call. -/
theorem step_negative_cycle_counterexample :
    step (fun _ => false) 25 (-10) = .ok ⟨[], [], false, true⟩ := by rfl

/-- For `N > 0` and `F < 0`, `N // F ≤ -1` (Python floor division). -/
theorem fdiv_le_neg_one {N F : Int} (hN : 0 < N) (hF : F < 0) : N.fdiv F ≤ -1 := by
  obtain ⟨n, rfl⟩ := Int.eq_succ_of_zero_lt hN
  obtain ⟨f, rfl⟩ := Int.eq_negSucc_of_lt_zero hF
  have h : Int.fdiv (Int.ofNat (n+1)) (Int.negSucc f) = Int.negSucc (n / (f+1)) := rfl
  rw [show ((n.succ : Nat) : Int) = Int.ofNat (n+1) from rfl, h, Int.negSucc_eq]
  have hc : (0:Int) ≤ ((n / (f+1) : Nat) : Int) := Int.natCast_nonneg _
  linarith

/-- C7 amended: a zero feedback cycle size raises `ZeroDivisionError`
at the `//` before any engine step call; a negative cycle size does not
report an error at all — the loop body never runs and the action
reports success with zero engine step calls and zero feedbacks. -/
theorem step_nonpositive_cycle :
    (∀ (p : Nat → Bool) (N : Int), step p N 0 = .error .zeroDivision)
    ∧ (∀ (p : Nat → Bool) (N F : Int), 0 < N → F < 0 →
        step p N F = .ok ⟨[], [], false, true⟩) := by
  constructor
  · intro p N
    simp [step]
  · intro p N F hN hF
    have hF0 : F ≠ 0 := ne_of_lt hF
    have hfd : N.fdiv F ≤ -1 := fdiv_le_neg_one hN hF
    have himax : (if N.fmod F ≠ 0 then N.fdiv F + 1 else N.fdiv F) ≤ 0 := by
      split <;> omega
    simp only [step]
    rw [if_neg hF0, Int.toNat_of_nonpos himax]
    rfl

/-- Witness for C7 amended: `F = 0` raises; `F = -10` silently
succeeds with no engine step calls. -/
theorem step_nonpositive_cycle_witness :
    step (fun _ => false) 7 0 = .error .zeroDivision
    ∧ step (fun _ => false) 25 (-10) = .ok ⟨[], [], false, true⟩ :=
  ⟨step_nonpositive_cycle.1 (fun _ => false) 7,
   step_nonpositive_cycle.2 (fun _ => false) 25 (-10) (by decide) (by decide)⟩

/-- C1 counterexample: starting `scenarioOne` then `scenarioTwo` from
an empty bridge state leaves the static-transform-frame list holding
the frame `v1_s1` created for the *first* scenario in front of the
second scenario's `v2_s2` — the static-frame list is never reset. -/
theorem start_scenario_frame_leak_counterexample :
    ((start_scenario (fun _ => true)
        (start_scenario (fun _ => true) ⟨[], [], none, false⟩ (some scenarioOne))
        (some scenarioTwo)).staticTfFrames.map (fun f => f.childFrameId))
      = ["v1_s1", "v2_s2"] := by rfl

/-- C1 amended: after starting two scenarios in sequence the publisher
list holds only the second scenario's publishers (the reset on entry to
`start_scenario` drops the first scenario's), but the static-frame list
is never reset: the second scenario's frames are appended after
whatever was there, so the first scenario's frames remain. -/
theorem start_scenario_sequencing (pubFor : String → Bool) (st : BridgeState)
    (s1 s2 : ScenarioSpec) :
    (start_scenario pubFor (start_scenario pubFor st (some s1)) (some s2)).publishers =
      (if s2.networkViz then [Publisher.networkPub] else [])
        ++ automationPublishers pubFor s2
    ∧ (start_scenario pubFor (start_scenario pubFor st (some s1)) (some s2)).staticTfFrames =
      (st.staticTfFrames ++ automationFrames pubFor s1) ++ automationFrames pubFor s2 := by
  constructor <;>
    simp [start_scenario, decode_scenario, set_sensor_automation_from_dict]

/-- C6 counterexample: when the scenario document is missing, the
publisher list does not keep the value it had before the call — it has
already been reset to `[]` on entry, before the file check. -/
theorem start_scenario_missing_file_counterexample :
    (start_scenario (fun _ => true) sampleState none).publishers
      ≠ sampleState.publishers := by decide

/-- C6 amended: on a missing scenario document `start_scenario` logs
and aborts leaving the static-frame list, the vehicle publisher and the
run flag unchanged — but the publisher list has already been reset to
empty on entry, before the document is loaded and checked. -/
theorem start_scenario_missing_file (pubFor : String → Bool) (st : BridgeState) :
    (start_scenario pubFor st none).publishers = []
    ∧ (start_scenario pubFor st none).staticTfFrames = st.staticTfFrames
    ∧ (start_scenario pubFor st none).vehiclePublisher = st.vehiclePublisher
    ∧ (start_scenario pubFor st none).running = st.running :=
  ⟨rfl, rfl, rfl, rfl⟩

/-- C4: evaluation of `get_sensor_classical_from_dict` on a derived
spec whose base id `lidar0` is not attached.  The error is logged, no
exception is modelled (the code has no raise on this path) — but the
derived sensor *is* attached, with the unresolved raw id string in its
base-sensor slot, contradicting the claim that it must be skipped. -/
theorem noise_missing_base_attaches_anyway :
    (get_sensor_classical_from_dict [noiseOnlySpec] ⟨"ego", []⟩).1.sensors =
      [("n1", ⟨"WhiteGaussianNoise", some (.raw "lidar0")⟩)]
    ∧ (get_sensor_classical_from_dict [noiseOnlySpec] ⟨"ego", []⟩).2 =
      ["Could not find sensor with id lidar0 to generate noise sensor of type WhiteGaussianNoise"] :=
  ⟨rfl, rfl⟩

/-- C5: any spawn or teleport request whose position is not exactly 3
numbers or whose orientation is not exactly 4 numbers returns
`success = false` with no engine call made. -/
theorem arity_validation :
    (∀ (req : SpawnVehicleRequest) (engineRet : Bool),
        req.pos.length ≠ 3 ∨ req.rotQuat.length ≠ 4 →
        spawn_new_vehicle req engineRet = (false, []))
    ∧ (∀ (req : TeleportVehicleRequest) (engineRet : Bool),
        req.pos.length ≠ 3 ∨ req.rotQuat.length ≠ 4 →
        teleport_vehicle req engineRet = (false, [])) := by
  constructor
  · intro req engineRet h
    rcases req with ⟨cfg, name, pos, rot⟩
    cases cfg with
    | none => rfl
    | some c =>
      simp only [spawn_new_vehicle]
      split_ifs with h1 h2
      · rfl
      · rfl
      · rcases h with h | h
        · exact absurd h h1
        · exact absurd h h2
  · intro req engineRet h
    simp only [teleport_vehicle]
    split_ifs with h1 h2
    · rfl
    · rfl
    · rcases h with h | h
      · exact absurd h h1
      · exact absurd h h2

/-- Witness for C5: a 2-element position (spawn) and a 2-element
orientation (teleport) are both rejected without an engine call. -/
theorem arity_validation_witness :
    spawn_new_vehicle ⟨some ⟨"car", "etk800"⟩, "car", [1.0, 2.0], [0.0, 0.0, 0.0, 1.0]⟩ true
      = (false, [])
    ∧ teleport_vehicle ⟨"v1", [1.0, 2.0, 3.0], [0.0, 1.0]⟩ true = (false, []) :=
  ⟨arity_validation.1 _ true (Or.inl (by decide)),
   arity_validation.2 _ true (Or.inr (by decide))⟩

/-- C10: `spawn_new_vehicle` never reads the engine's return value —
for a loadable config and well-formed arrays it answers
`success = true` unconditionally — while `teleport_vehicle` forwards
the engine's success flag verbatim. -/
theorem spawn_ignores_engine_result :
    (∀ (req : SpawnVehicleRequest) (r1 r2 : Bool),
        spawn_new_vehicle req r1 = spawn_new_vehicle req r2)
    ∧ (∀ (cfg : VehicleConfig) (name : String) (pos rot : List Float) (r : Bool),
        pos.length = 3 → rot.length = 4 →
        (spawn_new_vehicle ⟨some cfg, name, pos, rot⟩ r).1 = true)
    ∧ (∀ (req : TeleportVehicleRequest) (r : Bool),
        req.pos.length = 3 → req.rotQuat.length = 4 →
        (teleport_vehicle req r).1 = r) := by
  refine ⟨?_, ?_, ?_⟩
  · intro req r1 r2
    rcases req with ⟨cfg, name, pos, rot⟩
    cases cfg <;> rfl
  · intro cfg name pos rot r h3 h4
    simp [spawn_new_vehicle, h3, h4]
  · intro req r h3 h4
    simp [teleport_vehicle, h3, h4]

/-- Witness for C10: with well-formed arrays, spawn reports success
even when the engine call returned `false`; teleport reports the
engine's `false`. -/
theorem spawn_ignores_engine_result_witness :
    (spawn_new_vehicle ⟨some ⟨"car", "etk800"⟩, "car",
        [0.0, 0.0, 0.0], [0.0, 0.0, 0.0, 1.0]⟩ false).1 = true
    ∧ (teleport_vehicle ⟨"v1", [0.0, 0.0, 0.0], [0.0, 0.0, 0.0, 1.0]⟩ false).1 = false :=
  ⟨spawn_ignores_engine_result.2.1 _ _ _ _ false (by decide) (by decide),
   spawn_ignores_engine_result.2.2 _ false (by decide) (by decide)⟩

/-- C8: `get_scenario_state` reports `loaded` exactly when the engine
state is `"scenario"`, reports `running` exactly when additionally the
nested scenario-state is `"running"`, and returns the engine's vehicle
ids when loaded and the empty list otherwise. -/
theorem get_scenario_state_mapping (e : EngineView) :
    ((get_scenario_state e).loaded = true ↔ e.gamestate.state = "scenario")
    ∧ ((get_scenario_state e).running = true ↔
        (e.gamestate.state = "scenario" ∧ e.gamestate.scenarioState = some "running"))
    ∧ ((get_scenario_state e).vehicleIds =
        if e.gamestate.state = "scenario" then e.currentVehicles else []) := by
  by_cases h : e.gamestate.state = "scenario"
  · rcases hs : e.gamestate.scenarioState with _ | ss
    · simp [get_scenario_state, h, hs]
    · by_cases hr : ss = "running" <;> simp [get_scenario_state, h, hs, hr]
  · rcases hs : e.gamestate.scenarioState with _ | ss <;>
      simp [get_scenario_state, h, hs]

/-- C9 counterexample: with the run flag still false when `work` is
invoked, a scenario marked running at tick 1 and shutdown not signalled
until tick 5 produce *zero* ticks — while the identical configuration
with the flag already set produces a tick at every observed step.  The
loop is not "active once a scenario has been marked running after the
loop is invoked": `self.running` is read once, before the loop. -/
theorem work_requires_preset_flag_counterexample :
    work (fun n => decide (1 ≤ n)) (fun n => decide (5 ≤ n))
        [sampleFrame] none [Publisher.networkPub] 3 = []
    ∧ (work (fun _ => true) (fun n => decide (5 ≤ n))
        [sampleFrame] none [Publisher.networkPub] 3).length = 3 :=
  ⟨rfl, rfl⟩

/-- While shutdown stays false the loop ticks once per step, each tick
re-stamping and broadcasting every static frame and invoking the
vehicle publisher and every registered publisher. -/
theorem workLoop_no_shutdown (sh : Nat → Bool) (frames : List TFFrame)
    (vp : Option String) (pubs : List Publisher) :
    ∀ (fuel t : Nat), (∀ u, t ≤ u → u < t + fuel → sh u = false) →
      workLoop sh frames vp pubs t fuel =
        (List.range' t fuel).map
          (fun u => ⟨u, frames.map (restamp u), vp, pubs⟩) := by
  intro fuel
  induction fuel with
  | zero => intro t _; rfl
  | succ n ih =>
    intro t hsh
    have h0 : sh t = false := hsh t (Nat.le_refl t) (by omega)
    simp only [workLoop, h0, Bool.false_eq_true, if_false, List.range',
      List.map_cons, ih (t+1) (fun u hu hu' => hsh u (by omega) (by omega))]

/-- If shutdown first turns true at step `t + len` (inside the observed
window), the loop performs exactly the first `len` ticks and stops. -/
theorem workLoop_shutdown_at (sh : Nat → Bool) (frames : List TFFrame)
    (vp : Option String) (pubs : List Publisher) :
    ∀ (len t fuel : Nat), len ≤ fuel →
      (∀ u, t ≤ u → u < t + len → sh u = false) → sh (t + len) = true →
      workLoop sh frames vp pubs t fuel =
        (List.range' t len).map
          (fun u => ⟨u, frames.map (restamp u), vp, pubs⟩) := by
  intro len
  induction len with
  | zero =>
    intro t fuel _ _ hstop
    cases fuel with
    | zero => rfl
    | succ m =>
      have h0 : sh t = true := by simpa using hstop
      simp only [workLoop, h0, if_true, List.range', List.map_nil]
  | succ n ih =>
    intro t fuel hlf hsh hstop
    match fuel, hlf with
    | fuel+1, hlf =>
      have h0 : sh t = false := hsh t (Nat.le_refl t) (by omega)
      have hstop' : sh (t + 1 + n) = true := by
        rw [show t + 1 + n = t + (n + 1) by omega]; exact hstop
      simp only [workLoop, h0, Bool.false_eq_true, if_false, List.range', List.map_cons,
        ih (t+1) fuel (by omega) (fun u hu hu' => hsh u (by omega) (by omega)) hstop']

/-- C9 amended: the publish loop runs only if the run flag is already
true at the moment `work` is invoked (the flag is read once, before the
loop); a scenario marked running afterwards never activates it.  When
active, each tick re-stamps and re-broadcasts every static transform
and invokes every registered publisher, and the loop continues — one
tick per step — exactly until the shutdown signal. -/
theorem work_gated_by_initial_run_flag (runT sh : Nat → Bool) (frames : List TFFrame)
    (vp : Option String) (pubs : List Publisher) (fuel : Nat) :
    (runT 0 = false → work runT sh frames vp pubs fuel = [])
    ∧ (runT 0 = true → (∀ t, t < fuel → sh t = false) →
        work runT sh frames vp pubs fuel =
          (List.range' 0 fuel).map
            (fun t => ⟨t, frames.map (restamp t), vp, pubs⟩))
    ∧ (runT 0 = true → ∀ s, s ≤ fuel → sh s = true → (∀ t, t < s → sh t = false) →
        work runT sh frames vp pubs fuel =
          (List.range' 0 s).map
            (fun t => ⟨t, frames.map (restamp t), vp, pubs⟩)) := by
  refine ⟨?_, ?_, ?_⟩
  · intro h; simp [work, h]
  · intro h hsh
    rw [work, if_pos h]
    exact workLoop_no_shutdown sh frames vp pubs fuel 0
      (fun u _ hu => hsh u (by omega))
  · intro h s hs hstop hsh
    rw [work, if_pos h]
    exact workLoop_shutdown_at sh frames vp pubs s 0 fuel hs
      (fun u _ hu => hsh u (by omega)) (by simpa using hstop)

/-- Witness for C9 amended: flag set at invocation, shutdown at tick 2,
window of 5 — exactly ticks 0 and 1 happen, each broadcasting the
frame and the publishers. -/
theorem work_gated_by_initial_run_flag_witness :
    work (fun _ => true) (fun n => decide (2 ≤ n)) [sampleFrame] none
        [Publisher.networkPub] 5 =
      (List.range' 0 2).map
        (fun t => ⟨t, [sampleFrame].map (restamp t), none, [Publisher.networkPub]⟩) :=
  (work_gated_by_initial_run_flag (fun _ => true) (fun n => decide (2 ≤ n))
      [sampleFrame] none [Publisher.networkPub] 5).2.2 rfl 2
    (by decide) (by decide) (by decide)

end BeamNGControlBridge
